import Mathlib

/-!
# Verification of the mysqlstats Munin plugin core

Shallow embedding of `src/pymunin/plugins/mysqlstats.py` (class
`MuninMySQLplugin`): the graph-filter decisions, the fetch-once memoization
of the raw counter snapshot and the storage-engine set, the derivation of
composite field values inside `retrieveVals`, `engineIncluded` and
`autoconf`.

Modelling conventions:
* A Python dict of counters is an association list `Snapshot` preserving
  insertion order; `dict.get` is `Snapshot.get : Option Int` (absent key gives
  `none`, Python's `None`), `dict[k]` is `Snapshot.getItem : Except PyErr Int`
  (absent key raises `KeyError`), `dict[k] = v` is `Snapshot.set` (overwrite in
  place, or append for a fresh key).
* Python exceptions are the error side of `Except PyErr`. Arithmetic on
  possibly-`None` operands (`pySub`, `pyAdd`, `pyMulL`, `pyInt`) raises
  `TypeError` when an operand is `None`, as CPython does.
* The external collaborators `MySQLinfo.getStats` / `getStorageEngines`
  (module `pysysinfo.mysql`, outside this plugin) are parameters of the model:
  `Env` supplies, for each fetch occasion `n`, the outcome of the `n`-th
  round trip, so "the underlying data changed between accesses" is expressible.
* `setGraphVal` emission is recorded as the ordered list of
  `(graphId, fieldId, value)` triples; `none` as a value is Munin's unknown
  marker `U`.
-/

/-- Python exception kinds reachable in the modelled code. -/
inductive PyErr where
  | typeError
  | keyError
  | connError
  deriving Repr, DecidableEq

/-- A raw counter snapshot: a Python dict from counter name to numeric value,
modelled as an insertion-ordered association list. -/
abbrev Snapshot := List (String × Int)

namespace Snapshot

/-- Python `d.get(k)`: `some v` when the key is present, `none` (Python
`None`) otherwise. -/
def get (s : Snapshot) (k : String) : Option Int :=
  (s.find? (fun p => p.1 == k)).map Prod.snd

/-- Python subscript `d[k]`: the value when the key is present, `KeyError`
otherwise. -/
def getItem (s : Snapshot) (k : String) : Except PyErr Int :=
  match s.get k with
  | some v => Except.ok v
  | none => Except.error PyErr.keyError

/-- Python assignment `d[k] = v`: overwrite the (first, in a dict unique)
entry for the key in place, or append a fresh entry (Python dicts preserve
insertion order). -/
def set (s : Snapshot) (k : String) (v : Int) : Snapshot :=
  match s with
  | [] => [(k, v)]
  | p :: rest => if p.1 == k then (k, v) :: rest else p :: set rest k v

end Snapshot

/-- Python binary `-` on possibly-`None` operands: any `None` operand raises
`TypeError`. -/
def pySub : Option Int → Option Int → Except PyErr Int
  | some a, some b => Except.ok (a - b)
  | _, _ => Except.error PyErr.typeError

/-- Python binary `+` on possibly-`None` operands: any `None` operand raises
`TypeError`. -/
def pyAdd : Option Int → Option Int → Except PyErr Int
  | some a, some b => Except.ok (a + b)
  | _, _ => Except.error PyErr.typeError

/-- Python `x * n` where `x` may be `None` and `n` is an int: `None` raises
`TypeError`. -/
def pyMulL : Option Int → Int → Except PyErr Int
  | some a, b => Except.ok (a * b)
  | none, _ => Except.error PyErr.typeError

/-- Python `int(x)` where `x` may be `None`: identity on an int, `TypeError`
on `None`. -/
def pyInt : Option Int → Except PyErr Int
  | some a => Except.ok a
  | none => Except.error PyErr.typeError

/-- One `setGraphVal(graphId, fieldId, value)` call; `none` is the unknown
marker. -/
abbrev SetCall := String × String × Option Int

/-- The plugin configuration relevant to the core: the include/exclude name
lists for graphs and for storage engines (environment variables
`include_graphs`, `exclude_graphs`, `include_engine`, `exclude_engine`). -/
structure Config where
  includeGraphs : List String
  excludeGraphs : List String
  includeEngine : List String
  excludeEngine : List String
  deriving Repr, DecidableEq

/-- The external stats source (`MySQLinfo`): for fetch occasion `n`, the
outcome of the `n`-th `getStats()` round trip and of the `n`-th
`getStorageEngines()` round trip. -/
structure Env where
  statsFetch : Nat → Except PyErr Snapshot
  enginesFetch : Nat → Except PyErr (List String)

/-- The mutable plugin attributes: `self._genStats`, `self._engines`
(both initialised to `None` in `__init__`), together with ghost counters of
how many stats / engine-list round trips have been performed. -/
structure PollState where
  genStats : Option Snapshot
  engines : Option (List String)
  statsFetches : Nat
  engineFetches : Nat
  deriving Repr, DecidableEq

/-- The state right after `__init__` assigns `self._genStats = None` and
`self._engines = None`. -/
def initialState : PollState :=
  { genStats := none, engines := none, statsFetches := 0, engineFetches := 0 }

namespace FilterEngine

/-- Modelled from the spec: the include/exclude filter resolution
(`MuninPlugin.graphEnabled` / `envCheckFilter` live in the framework module
`pymunin/__init__.py`, which is not among the provided sources). Rule of
§4.1: if the exclude set contains the name, disabled (exclude always wins);
else if the include set is non-empty, enabled iff the name is in the include
set; else enabled by default. -/
def decide (name : String) (includeSet excludeSet : List String) : Bool :=
  if excludeSet.contains name then false
  else if !includeSet.isEmpty then includeSet.contains name
  else true

end FilterEngine

/-- Modelled from the spec: `self.graphEnabled(name)` resolves the
`include_graphs` / `exclude_graphs` lists through the §4.1 rule. -/
def graphEnabled (cfg : Config) (name : String) : Bool :=
  FilterEngine.decide name cfg.includeGraphs cfg.excludeGraphs

/-- Modelled from the spec: `self.envCheckFilter('engine', name)` resolves the
`include_engine` / `exclude_engine` lists through the §4.1 rule. -/
def envCheckFilter (cfg : Config) (name : String) : Bool :=
  FilterEngine.decide name cfg.includeEngine cfg.excludeEngine

/-- Method `MuninMySQLplugin.engineIncluded` (mysqlstats.py lines 367-376):
```
if self._engines is None:
    self._engines = self._dbconn.getStorageEngines()
return self.envCheckFilter('engine', name) and name in self._engines
```
The fetch is memoized in `self._engines`; a fetch failure propagates (there
is no handler). -/
def engineIncluded (env : Env) (cfg : Config) (name : String) (st : PollState) :
    Except PyErr (Bool × PollState) :=
  match st.engines with
  | some es => Except.ok (envCheckFilter cfg name && es.contains name, st)
  | none =>
    match env.enginesFetch st.engineFetches with
    | Except.error e => Except.error e
    | Except.ok es =>
      Except.ok (envCheckFilter cfg name && es.contains name,
        { st with engines := some es, engineFetches := st.engineFetches + 1 })

/-- The memoized stats fetch opening `retrieveVals` (lines 285-286):
```
if self._genStats is None:
    self._genStats = self._dbconn.getStats()
```
returning the snapshot now held in `self._genStats`. -/
def getGenStats (env : Env) (st : PollState) :
    Except PyErr (Snapshot × PollState) :=
  match st.genStats with
  | some s => Except.ok (s, st)
  | none =>
    match env.statsFetch st.statsFetches with
    | Except.error e => Except.error e
    | Except.ok s =>
      Except.ok (s, { st with genStats := some s,
                              statsFetches := st.statsFetches + 1 })

/-- Method `MuninMySQLplugin.autoconf` (lines 378-385):
```
return (self._dbconn is not None
        and len(self._dbconn.getDatabases()) > 0)
```
`dbconnIsNotNone` models `self._dbconn is not None` (always true after
`__init__`); `getDatabases` is the outcome of the collaborator call, which is
not wrapped in any exception handler. -/
def autoconf (dbconnIsNotNone : Bool)
    (getDatabases : Except PyErr (List String)) : Except PyErr Bool :=
  if dbconnIsNotNone then
    match getDatabases with
    | Except.ok dbs => Except.ok (decide (0 < dbs.length))
    | Except.error e => Except.error e
  else
    Except.ok false

/-! ## The per-graph value sections of `retrieveVals` (lines 287-365) -/

/-- Lines 287-293: `mysql_connections` pass-through values. -/
def connectionsVals (reg : List String) (gs : Snapshot) : List SetCall :=
  if reg.contains "mysql_connections" then
    [("mysql_connections", "conn", gs.get "Connections"),
     ("mysql_connections", "abort_conn", gs.get "Aborted_connects"),
     ("mysql_connections", "abort_client", gs.get "Aborted_clients")]
  else []

/-- Lines 294-298: `mysql_traffic` pass-through values. -/
def trafficVals (reg : List String) (gs : Snapshot) : List SetCall :=
  if reg.contains "mysql_traffic" then
    [("mysql_traffic", "rx", gs.get "Bytes_received"),
     ("mysql_traffic", "tx", gs.get "Bytes_sent")]
  else []

/-- Lines 299-301: `mysql_slowqueries`. The source guards this section with
`graphEnabled` (a filter re-check) rather than `hasGraph` (a registry
lookup), unlike every other section. -/
def slowqueriesVals (cfg : Config) (gs : Snapshot) : List SetCall :=
  if graphEnabled cfg "mysql_slowqueries" then
    [("mysql_slowqueries", "queries", gs.get "Slow_queries")]
  else []

/-- Lines 302-308: `mysql_rowmodifications` pass-through values. -/
def rowmodsVals (reg : List String) (gs : Snapshot) : List SetCall :=
  if reg.contains "mysql_rowmodifications" then
    [("mysql_rowmodifications", "insert", gs.get "Handler_write"),
     ("mysql_rowmodifications", "update", gs.get "Handler_update"),
     ("mysql_rowmodifications", "delete", gs.get "Handler_delete")]
  else []

/-- Lines 309-312: `mysql_rowreads`; the loop runs over the registered field
list, which `__init__` fixes to these six names. -/
def rowreadsVals (reg : List String) (gs : Snapshot) : List SetCall :=
  if reg.contains "mysql_rowreads" then
    ["first", "key", "next", "prev", "rnd", "rnd_next"].map
      (fun f => ("mysql_rowreads", f, gs.get ("Handler_read_" ++ f)))
  else []

/-- Lines 313-317: `mysql_tablelocks` pass-through values. -/
def tablelocksVals (reg : List String) (gs : Snapshot) : List SetCall :=
  if reg.contains "mysql_tablelocks" then
    [("mysql_tablelocks", "waited", gs.get "Table_locks_waited"),
     ("mysql_tablelocks", "immediate", gs.get "Table_locks_immediate")]
  else []

/-- Line 321-323: the `idle` operand of the threads graph,
`self._genStats.get('Threads_connected') - self._genStats.get('Threads_running')`.
A missing counter makes the corresponding `get` return `None`, so the
subtraction raises `TypeError`. -/
def threadsIdle (gs : Snapshot) : Except PyErr Int :=
  pySub (gs.get "Threads_connected") (gs.get "Threads_running")

/-- Line 326-328: the `total` operand of the threads graph,
`self._genStats.get('Threads_connected') + self._genStats.get('Threads_cached')`. -/
def threadsTotal (gs : Snapshot) : Except PyErr Int :=
  pyAdd (gs.get "Threads_connected") (gs.get "Threads_cached")

/-- Lines 318-328: the `mysql_threads` section. `running` and `cached` are
pass-through (`None` when absent); `idle` and `total` are computed by Python
arithmetic and abort the poll with `TypeError` when an operand is absent. -/
def threadsVals (gs : Snapshot) : Except PyErr (List SetCall) := do
  let idle ← threadsIdle gs
  let total ← threadsTotal gs
  return [("mysql_threads", "running", gs.get "Threads_running"),
          ("mysql_threads", "idle", some idle),
          ("mysql_threads", "cached", gs.get "Threads_cached"),
          ("mysql_threads", "total", some total)]

/-- The `hasGraph` guard of lines 318-328 around the threads section. -/
def threadsValsIf (reg : List String) (gs : Snapshot) :
    Except PyErr (List SetCall) :=
  if reg.contains "mysql_threads" then threadsVals gs else Except.ok []

/-- Lines 329-333: `mysql_commits_rollbacks` pass-through values. -/
def commitsVals (reg : List String) (gs : Snapshot) : List SetCall :=
  if reg.contains "mysql_commits_rollbacks" then
    [("mysql_commits_rollbacks", "commit", gs.get "Handler_commit"),
     ("mysql_commits_rollbacks", "rollback", gs.get "Handler_rollback")]
  else []

/-- Lines 338-347: the `mysql_innodb_buffer_pool_util` section. It first
stores the derived clean-page count back into the snapshot
(`self._genStats['Innodb_buffer_pool_pages_clean'] = data - dirty`), then
computes `int(page_size)` and one `count * page_size` product per category.
Any absent operand raises `TypeError`. Returns the (mutated) snapshot with
the emitted values. -/
def bpUtilVals (gs : Snapshot) : Except PyErr (Snapshot × List SetCall) := do
  let clean ← pySub (gs.get "Innodb_buffer_pool_pages_data")
                    (gs.get "Innodb_buffer_pool_pages_dirty")
  let gs2 := gs.set "Innodb_buffer_pool_pages_clean" clean
  let page_size ← pyInt (gs2.get "Innodb_page_size")
  let dirtyB ← pyMulL (gs2.get "Innodb_buffer_pool_pages_dirty") page_size
  let cleanB ← pyMulL (gs2.get "Innodb_buffer_pool_pages_clean") page_size
  let miscB ← pyMulL (gs2.get "Innodb_buffer_pool_pages_misc") page_size
  let freeB ← pyMulL (gs2.get "Innodb_buffer_pool_pages_free") page_size
  let totalB ← pyMulL (gs2.get "Innodb_buffer_pool_pages_total") page_size
  return (gs2,
    [("mysql_innodb_buffer_pool_util", "dirty", some dirtyB),
     ("mysql_innodb_buffer_pool_util", "clean", some cleanB),
     ("mysql_innodb_buffer_pool_util", "misc", some miscB),
     ("mysql_innodb_buffer_pool_util", "free", some freeB),
     ("mysql_innodb_buffer_pool_util", "total", some totalB)])

/-- The `hasGraph` guard of lines 337-347: when the graph is not registered
the section is skipped and the snapshot is untouched. -/
def bpUtilValsIf (reg : List String) (gs : Snapshot) :
    Except PyErr (Snapshot × List SetCall) :=
  if reg.contains "mysql_innodb_buffer_pool_util" then bpUtilVals gs
  else Except.ok (gs, [])

/-- Lines 348-351: `mysql_innodb_buffer_pool_activity` pass-through values. -/
def bpActivityVals (reg : List String) (gs : Snapshot) : List SetCall :=
  if reg.contains "mysql_innodb_buffer_pool_activity" then
    ["created", "read", "written"].map
      (fun f => ("mysql_innodb_buffer_pool_activity", f,
                 gs.get ("Innodb_pages_" ++ f)))
  else []

/-- Lines 355-359: the buffer-pool hit count,
```
try:
    hits = (self._genStats['Innodb_buffer_pool_read_requests']
            - self._genStats['Innodb_buffer_pool_reads'])
except KeyError:
    hits = None
```
Subscript access raises `KeyError` on an absent key, which the handler turns
into `None`. -/
def bufferPoolHits (gs : Snapshot) : Option Int :=
  match gs.getItem "Innodb_buffer_pool_read_requests",
        gs.getItem "Innodb_buffer_pool_reads" with
  | Except.ok a, Except.ok b => some (a - b)
  | _, _ => none

/-- Lines 352-361: `mysql_innodb_buffer_pool_read_reqs`; `disk` is
pass-through, `buffer` is the guarded hit count. -/
def bpReadReqsVals (reg : List String) (gs : Snapshot) : List SetCall :=
  if reg.contains "mysql_innodb_buffer_pool_read_reqs" then
    [("mysql_innodb_buffer_pool_read_reqs", "disk",
      gs.get "Innodb_buffer_pool_reads"),
     ("mysql_innodb_buffer_pool_read_reqs", "buffer", bufferPoolHits gs)]
  else []

/-- Lines 362-365: `mysql_innodb_row_ops` pass-through values. -/
def innodbRowOpsVals (reg : List String) (gs : Snapshot) : List SetCall :=
  if reg.contains "mysql_innodb_row_ops" then
    ["inserted", "updated", "deleted", "read"].map
      (fun f => ("mysql_innodb_row_ops", f, gs.get ("Innodb_rows_" ++ f)))
  else []

/-- Lines 335-365: the block guarded by `if self.engineIncluded('innodb')`:
the buffer-pool-util section (which may mutate the snapshot), then the
activity, read-request and row-operation sections over the resulting
snapshot. Skipped entirely (`inc = false`) when the engine is not
included. -/
def innodbSection (reg : List String) (gs : Snapshot) (inc : Bool) :
    Except PyErr (Snapshot × List SetCall) :=
  if inc then do
    let (gs2, o9) ← bpUtilValsIf reg gs
    Except.ok (gs2, o9 ++ bpActivityVals reg gs2 ++
               bpReadReqsVals reg gs2 ++ innodbRowOpsVals reg gs2)
  else Except.ok (gs, [])

/-- Method `MuninMySQLplugin.retrieveVals` (lines 283-365): memoized stats
fetch, the engine-independent sections in source order, then the InnoDB
block. `reg` is the set of graphs registered by `__init__` (queried via
`hasGraph`); the result is the ordered list of `setGraphVal` calls and the
final attribute state, with `self._genStats` ending as the (possibly
clean-page-extended) snapshot the sections worked on — when the InnoDB block
is skipped the final `genStats` update is the identity, since the memoized
snapshot already equals `gs`. An uncaught Python exception surfaces as
`Except.error` (the poll aborts with no output). -/
def retrieveVals (env : Env) (cfg : Config) (reg : List String)
    (st0 : PollState) : Except PyErr (List SetCall × PollState) := do
  let (gs, st1) ← getGenStats env st0
  let o7 ← threadsValsIf reg gs
  let base := connectionsVals reg gs ++ trafficVals reg gs ++
              slowqueriesVals cfg gs ++ rowmodsVals reg gs ++
              rowreadsVals reg gs ++ tablelocksVals reg gs ++
              o7 ++ commitsVals reg gs
  let (inc, st2) ← engineIncluded env cfg "innodb" st1
  let (gs2, oInn) ← innodbSection reg gs inc
  Except.ok (base ++ oInn, { st2 with genStats := some gs2 })

/-! ## `__init__` graph registration (lines 97-281) -/

/-- Lines 97-216: the eight engine-independent graphs, registered in
declaration order when `graphEnabled` allows them. -/
def baseRegistry (cfg : Config) : List String :=
  (if graphEnabled cfg "mysql_connections" then ["mysql_connections"] else []) ++
  (if graphEnabled cfg "mysql_traffic" then ["mysql_traffic"] else []) ++
  (if graphEnabled cfg "mysql_slowqueries" then ["mysql_slowqueries"] else []) ++
  (if graphEnabled cfg "mysql_rowmodifications" then ["mysql_rowmodifications"] else []) ++
  (if graphEnabled cfg "mysql_rowreads" then ["mysql_rowreads"] else []) ++
  (if graphEnabled cfg "mysql_tablelocks" then ["mysql_tablelocks"] else []) ++
  (if graphEnabled cfg "mysql_threads" then ["mysql_threads"] else []) ++
  (if graphEnabled cfg "mysql_commits_rollbacks" then ["mysql_commits_rollbacks"] else [])

/-- Lines 220-281: the four InnoDB graphs, registered in declaration order
when `graphEnabled` allows them (only reached when `engineIncluded('innodb')`
held). -/
def innodbRegistry (cfg : Config) : List String :=
  (if graphEnabled cfg "mysql_innodb_buffer_pool_util"
   then ["mysql_innodb_buffer_pool_util"] else []) ++
  (if graphEnabled cfg "mysql_innodb_buffer_pool_activity"
   then ["mysql_innodb_buffer_pool_activity"] else []) ++
  (if graphEnabled cfg "mysql_innodb_buffer_pool_read_reqs"
   then ["mysql_innodb_buffer_pool_read_reqs"] else []) ++
  (if graphEnabled cfg "mysql_innodb_row_ops"
   then ["mysql_innodb_row_ops"] else [])

/-- Constructor `MuninMySQLplugin.__init__` (lines 74-281), reduced to what the claims
need: starting from `self._genStats = None`, `self._engines = None`, register
the engine-independent graphs, then evaluate the unconditional
`if self.engineIncluded('innodb')` of line 218 (which performs the engine-set
fetch) and register the InnoDB graphs when it holds. Registration itself is
pure, so the registry is assembled around the single effectful call. -/
def pluginInit (env : Env) (cfg : Config) :
    Except PyErr (List String × PollState) := do
  let (inc, st1) ← engineIncluded env cfg "innodb" initialState
  return (baseRegistry cfg ++ (if inc then innodbRegistry cfg else []), st1)

/-! ## Concrete inputs used by witnesses and counterexamples -/

/-- An empty include/exclude configuration (all graphs and engines pass the
filters, the default). -/
def cfgDefault : Config :=
  { includeGraphs := [], excludeGraphs := [],
    includeEngine := [], excludeEngine := [] }

/-- A stats source whose snapshot changes on every round trip (the fetch
counter is embedded in the data), used to exhibit the memoization. -/
def changingEnv : Env :=
  { statsFetch := fun n => Except.ok [("Connections", (n : Int))],
    enginesFetch := fun n => Except.ok (if n = 0 then ["innodb"] else []) }

/-- A fully populated InnoDB buffer-pool snapshot (no
`Innodb_buffer_pool_pages_clean` entry, as on a real server). -/
def bpSnapshot : Snapshot :=
  [("Innodb_buffer_pool_pages_data", 100),
   ("Innodb_buffer_pool_pages_dirty", 10),
   ("Innodb_page_size", 4096),
   ("Innodb_buffer_pool_pages_misc", 5),
   ("Innodb_buffer_pool_pages_free", 20),
   ("Innodb_buffer_pool_pages_total", 125)]

/-! ## Helper lemmas on the snapshot dictionary -/

/-- Reading back the key just written. -/
theorem Snapshot.get_set_same (s : Snapshot) (k : String) (v : Int) :
    (s.set k v).get k = some v := by
  induction s with
  | nil => simp [Snapshot.set, Snapshot.get]
  | cons p rest ih =>
    by_cases h : p.1 = k
    · simp [Snapshot.set, Snapshot.get, h]
    · simp only [Snapshot.set, Snapshot.get] at *
      rw [if_neg (by simpa using h)]
      simpa [List.find?, (by simpa using h : (p.1 == k) = false)] using ih

/-- Writing one key leaves every other key unchanged. -/
theorem Snapshot.get_set_ne (s : Snapshot) (k : String) (v : Int)
    (k' : String) (h : k' ≠ k) : (s.set k v).get k' = s.get k' := by
  induction s with
  | nil => simp [Snapshot.set, Snapshot.get, List.find?,
      (by simpa using fun e => h e.symm : (k == k') = false)]
  | cons p rest ih =>
    by_cases hp : p.1 = k
    · simp [Snapshot.set, Snapshot.get, hp, List.find?,
        (by simpa using fun e => h e.symm : (k == k') = false),
        (by simpa [hp] using fun e => h e.symm : (p.1 == k') = false)]
    · simp only [Snapshot.set]
      rw [if_neg (by simpa using hp)]
      by_cases hq : p.1 = k'
      · simp [Snapshot.get, List.find?, hq]
      · simp only [Snapshot.get, List.find?,
          (by simpa using hq : (p.1 == k') = false)] at *
        exact ih

/-- Key of the derived clean-page entry written back by the buffer-pool-util
section. -/
theorem Snapshot.get_setclean_psize (s : Snapshot) (v : Int) :
    (s.set "Innodb_buffer_pool_pages_clean" v).get "Innodb_page_size" =
      s.get "Innodb_page_size" :=
  Snapshot.get_set_ne s _ v _ (by decide)

theorem Snapshot.get_setclean_data (s : Snapshot) (v : Int) :
    (s.set "Innodb_buffer_pool_pages_clean" v).get
        "Innodb_buffer_pool_pages_data" =
      s.get "Innodb_buffer_pool_pages_data" :=
  Snapshot.get_set_ne s _ v _ (by decide)

theorem Snapshot.get_setclean_dirty (s : Snapshot) (v : Int) :
    (s.set "Innodb_buffer_pool_pages_clean" v).get
        "Innodb_buffer_pool_pages_dirty" =
      s.get "Innodb_buffer_pool_pages_dirty" :=
  Snapshot.get_set_ne s _ v _ (by decide)

theorem Snapshot.get_setclean_misc (s : Snapshot) (v : Int) :
    (s.set "Innodb_buffer_pool_pages_clean" v).get
        "Innodb_buffer_pool_pages_misc" =
      s.get "Innodb_buffer_pool_pages_misc" :=
  Snapshot.get_set_ne s _ v _ (by decide)

theorem Snapshot.get_setclean_free (s : Snapshot) (v : Int) :
    (s.set "Innodb_buffer_pool_pages_clean" v).get
        "Innodb_buffer_pool_pages_free" =
      s.get "Innodb_buffer_pool_pages_free" :=
  Snapshot.get_set_ne s _ v _ (by decide)

theorem Snapshot.get_setclean_total (s : Snapshot) (v : Int) :
    (s.set "Innodb_buffer_pool_pages_clean" v).get
        "Innodb_buffer_pool_pages_total" =
      s.get "Innodb_buffer_pool_pages_total" :=
  Snapshot.get_set_ne s _ v _ (by decide)

/-! ## Claim C1: the idle-threads derivation -/

/-- C1 counterexample: for the snapshot containing only
`Threads_connected = 10` (so `Threads_running` is absent), the poll cycle
raises `TypeError` — the `idle` field is not assigned the unknown marker,
contradicting the claim that an absent counter yields unknown and never a
raised failure. -/
theorem C1_counterexample :
    retrieveVals
      { statsFetch := fun _ => Except.ok [("Threads_connected", 10)],
        enginesFetch := fun _ => Except.ok [] }
      cfgDefault ["mysql_threads"] initialState =
      Except.error PyErr.typeError := by
  rfl

/-- C1 (amended): when both `Threads_connected` and `Threads_running` are
present, the `idle` value equals their difference; when either is absent, the
derivation raises `TypeError` (aborting the poll) instead of producing the
unknown marker. -/
theorem C1_amended (gs : Snapshot) :
    (∀ a b : Int, gs.get "Threads_connected" = some a →
      gs.get "Threads_running" = some b →
      threadsIdle gs = Except.ok (a - b)) ∧
    ((gs.get "Threads_connected" = none ∨ gs.get "Threads_running" = none) →
      threadsIdle gs = Except.error PyErr.typeError) := by
  constructor
  · intro a b ha hb
    simp [threadsIdle, ha, hb, pySub]
  · intro h
    rcases h with h | h
    · cases hb : gs.get "Threads_running" <;> simp [threadsIdle, h, hb, pySub]
    · cases ha : gs.get "Threads_connected" <;> simp [threadsIdle, h, ha, pySub]

/-- Witness for `C1_amended` at concrete snapshots. -/
theorem C1_amended_witness :
    threadsIdle [("Threads_connected", 10), ("Threads_running", 3)] =
      Except.ok 7 ∧
    threadsIdle [("Threads_connected", 10)] =
      Except.error PyErr.typeError :=
  ⟨(C1_amended [("Threads_connected", 10), ("Threads_running", 3)]).1
      10 3 rfl rfl,
   (C1_amended [("Threads_connected", 10)]).2 (Or.inr rfl)⟩

/-! ## Claim C3: the autoconf capability check -/

/-- C3 counterexample: when the database-list fetch fails with a connection
error, `autoconf` propagates that error instead of returning `false`,
contradicting the claim that every connection failure is caught. -/
theorem C3_counterexample :
    autoconf true (Except.error PyErr.connError) =
        Except.error PyErr.connError ∧
      autoconf true (Except.error PyErr.connError) ≠ Except.ok false := by
  exact ⟨rfl, fun h => Except.noConfusion h⟩

/-- C3 (amended): `autoconf` returns true iff the database-list fetch
succeeds and yields a non-empty list; a failing fetch is NOT caught — the
error propagates to the caller (`self._dbconn is not None` always holds after
`__init__`, so the guard never yields false). -/
theorem C3_amended :
    (∀ dbs : List String,
      autoconf true (Except.ok dbs) = Except.ok (decide (0 < dbs.length))) ∧
    (∀ e : PyErr, autoconf true (Except.error e) = Except.error e) := by
  exact ⟨fun dbs => rfl, fun e => rfl⟩

/-! ## Claim C4: engine inclusion under a failing engine-set fetch -/

/-- C4 counterexample: with the engine set not yet memoized and the fetch
failing with a connection error, `engineIncluded` propagates the error
instead of answering `false`, contradicting the claimed fail-safe. -/
theorem C4_counterexample :
    engineIncluded
      { statsFetch := fun _ => Except.ok [],
        enginesFetch := fun _ => Except.error PyErr.connError }
      cfgDefault "innodb" initialState = Except.error PyErr.connError := by
  rfl

/-- C4 (amended): a transport error during the engine-set fetch propagates
out of `engineIncluded` (there is no handler); only an engine absent from a
successfully fetched set is treated as not included. -/
theorem C4_amended (env : Env) (cfg : Config) (name : String)
    (st : PollState) :
    (∀ e : PyErr, st.engines = none →
      env.enginesFetch st.engineFetches = Except.error e →
      engineIncluded env cfg name st = Except.error e) ∧
    (∀ es : List String, st.engines = none →
      env.enginesFetch st.engineFetches = Except.ok es →
      name ∉ es →
      engineIncluded env cfg name st =
        Except.ok (false, { st with engines := some es,
                                    engineFetches := st.engineFetches + 1 })) := by
  constructor
  · intro e h1 h2
    simp [engineIncluded, h1, h2]
  · intro es h1 h2 h3
    simp [engineIncluded, h1, h2, h3]

/-- Witness for `C4_amended` at a concrete failing and a concrete succeeding
fetch. -/
theorem C4_amended_witness :
    engineIncluded
      { statsFetch := fun _ => Except.ok [],
        enginesFetch := fun _ => Except.error PyErr.connError }
      cfgDefault "myisam" initialState = Except.error PyErr.connError ∧
    engineIncluded
      { statsFetch := fun _ => Except.ok [],
        enginesFetch := fun _ => Except.ok ["myisam"] }
      cfgDefault "innodb" initialState =
      Except.ok (false, { genStats := none, engines := some ["myisam"],
                          statsFetches := 0, engineFetches := 1 }) :=
  ⟨(C4_amended
      { statsFetch := fun _ => Except.ok [],
        enginesFetch := fun _ => Except.error PyErr.connError }
      cfgDefault "myisam" initialState).1 PyErr.connError rfl rfl,
   (C4_amended
      { statsFetch := fun _ => Except.ok [],
        enginesFetch := fun _ => Except.ok ["myisam"] }
      cfgDefault "innodb" initialState).2 ["myisam"] rfl rfl (by decide)⟩

/-! ## Claim C5: the buffer-pool hit count under an absent physical-reads
counter -/

/-- C5: if `Innodb_buffer_pool_reads` is absent while
`Innodb_buffer_pool_read_requests` is present, the `try/except KeyError`
yields `None`: the `buffer` field is assigned the unknown marker (and no
failure escapes — the section is a total function). -/
theorem C5_hit_count_unknown (gs : Snapshot) (v : Int)
    (habs : gs.get "Innodb_buffer_pool_reads" = none)
    (hreq : gs.get "Innodb_buffer_pool_read_requests" = some v) :
    bufferPoolHits gs = none ∧
    bpReadReqsVals ["mysql_innodb_buffer_pool_read_reqs"] gs =
      [("mysql_innodb_buffer_pool_read_reqs", "disk", none),
       ("mysql_innodb_buffer_pool_read_reqs", "buffer", none)] := by
  have hb : bufferPoolHits gs = none := by
    simp [bufferPoolHits, Snapshot.getItem, habs, hreq]
  exact ⟨hb, by simp [bpReadReqsVals, habs, hb]⟩

/-- Witness for `C5_hit_count_unknown` at a concrete snapshot that has the
logical-request counter but not the physical-reads counter. -/
theorem C5_witness :
    bufferPoolHits [("Innodb_buffer_pool_read_requests", 50)] = none ∧
    bpReadReqsVals ["mysql_innodb_buffer_pool_read_reqs"]
        [("Innodb_buffer_pool_read_requests", 50)] =
      [("mysql_innodb_buffer_pool_read_reqs", "disk", none),
       ("mysql_innodb_buffer_pool_read_reqs", "buffer", none)] :=
  C5_hit_count_unknown [("Innodb_buffer_pool_read_requests", 50)] 50 rfl rfl

/-! ## Claim C8: the include/exclude filter rule -/

/-- C8: the filter decision — exclude always wins; otherwise a non-empty
include list is an allow-list; otherwise enabled by default. -/
theorem C8_filter_rule (name : String) (includeSet excludeSet : List String) :
    (name ∈ excludeSet →
      FilterEngine.decide name includeSet excludeSet = false) ∧
    (name ∉ excludeSet → includeSet ≠ [] →
      (FilterEngine.decide name includeSet excludeSet = true ↔
        name ∈ includeSet)) ∧
    (name ∉ excludeSet → includeSet = [] →
      FilterEngine.decide name includeSet excludeSet = true) := by
  refine ⟨fun h => by simp [FilterEngine.decide, h], fun h hne => ?_,
    fun h he => by simp [FilterEngine.decide, h, he]⟩
  cases includeSet with
  | nil => exact absurd rfl hne
  | cons a l => simp [FilterEngine.decide, h]

/-- Witness for `C8_filter_rule`: Scenario B (a graph both included and
excluded is disabled), the allow-list branch, and the default branch, at
concrete name lists. -/
theorem C8_witness :
    FilterEngine.decide "mysql_threads" ["mysql_threads"] ["mysql_threads"] =
      false ∧
    (FilterEngine.decide "mysql_traffic" ["mysql_threads"] [] = true ↔
      "mysql_traffic" ∈ ["mysql_threads"]) ∧
    FilterEngine.decide "mysql_traffic" [] [] = true :=
  ⟨(C8_filter_rule "mysql_threads" ["mysql_threads"] ["mysql_threads"]).1
      (by decide),
   (C8_filter_rule "mysql_traffic" ["mysql_threads"] []).2.1 (by decide)
     (by simp),
   (C8_filter_rule "mysql_traffic" [] []).2.2 (by decide) rfl⟩

/-! ## Claim C9: Scenario A -/

/-- C9: for the snapshot holding exactly `Threads_connected = 10`,
`Threads_running = 3`, `Threads_cached = 2`, the poll cycle assigns the
threads graph `running = 3`, `idle = 7`, `cached = 2`, `total = 12`. -/
theorem C9_scenario_a :
    (retrieveVals
      { statsFetch := fun _ => Except.ok
          [("Threads_connected", 10), ("Threads_running", 3),
           ("Threads_cached", 2)],
        enginesFetch := fun _ => Except.ok ["myisam"] }
      cfgDefault ["mysql_threads"] initialState).map
        (fun r => r.1.filter (fun c => c.1 == "mysql_threads")) =
    Except.ok
      [("mysql_threads", "running", some 3),
       ("mysql_threads", "idle", some 7),
       ("mysql_threads", "cached", some 2),
       ("mysql_threads", "total", some 12)] := by
  rfl

/-! ## Claim C7: fetch-once memoization -/

/-- C7: both caches are fetch-once. A first access (attribute still `None`)
performs the round trip and stores the result; any later access returns the
stored value and performs no round trip — the conclusion of the memoized
cases does not depend on `env` at all, so it holds even when the underlying
data would have changed. -/
theorem C7_memoization (env : Env) (cfg : Config) (name : String)
    (st : PollState) (s : Snapshot) (es : List String) :
    (st.genStats = none → env.statsFetch st.statsFetches = Except.ok s →
      getGenStats env st =
        Except.ok (s, { st with genStats := some s,
                                statsFetches := st.statsFetches + 1 })) ∧
    (st.genStats = some s → getGenStats env st = Except.ok (s, st)) ∧
    (st.engines = none → env.enginesFetch st.engineFetches = Except.ok es →
      engineIncluded env cfg name st =
        Except.ok (envCheckFilter cfg name && es.contains name,
          { st with engines := some es,
                    engineFetches := st.engineFetches + 1 })) ∧
    (st.engines = some es →
      engineIncluded env cfg name st =
        Except.ok (envCheckFilter cfg name && es.contains name, st)) := by
  refine ⟨fun h1 h2 => ?_, fun h => ?_, fun h1 h2 => ?_, fun h => ?_⟩
  · simp [getGenStats, h1, h2]
  · simp [getGenStats, h]
  · simp [engineIncluded, h1, h2]
  · simp [engineIncluded, h]

/-- Witness for `C7_memoization` against `changingEnv`, whose data differs on
every round trip: the second access still returns the first fetch's result
with the fetch counters untouched. -/
theorem C7_witness :
    getGenStats changingEnv initialState =
      Except.ok ([("Connections", 0)],
        { genStats := some [("Connections", 0)], engines := none,
          statsFetches := 1, engineFetches := 0 }) ∧
    getGenStats changingEnv
        { genStats := some [("Connections", 0)], engines := none,
          statsFetches := 1, engineFetches := 0 } =
      Except.ok ([("Connections", 0)],
        { genStats := some [("Connections", 0)], engines := none,
          statsFetches := 1, engineFetches := 0 }) ∧
    engineIncluded changingEnv cfgDefault "innodb" initialState =
      Except.ok (true,
        { genStats := none, engines := some ["innodb"],
          statsFetches := 0, engineFetches := 1 }) ∧
    engineIncluded changingEnv cfgDefault "innodb"
        { genStats := none, engines := some ["innodb"],
          statsFetches := 0, engineFetches := 1 } =
      Except.ok (true,
        { genStats := none, engines := some ["innodb"],
          statsFetches := 0, engineFetches := 1 }) :=
  ⟨(C7_memoization changingEnv cfgDefault "innodb" initialState
      [("Connections", 0)] ["innodb"]).1 rfl rfl,
   (C7_memoization changingEnv cfgDefault "innodb"
      { genStats := some [("Connections", 0)], engines := none,
        statsFetches := 1, engineFetches := 0 }
      [("Connections", 0)] ["innodb"]).2.1 rfl,
   (C7_memoization changingEnv cfgDefault "innodb" initialState
      [("Connections", 0)] ["innodb"]).2.2.1 rfl rfl,
   (C7_memoization changingEnv cfgDefault "innodb"
      { genStats := none, engines := some ["innodb"],
        statsFetches := 0, engineFetches := 1 }
      [("Connections", 0)] ["innodb"]).2.2.2 rfl⟩

/-! ## Claim C10: the engine-set fetch precedes the name filter and is
triggered unconditionally at construction -/

/-- C10: `engineIncluded` performs the (unmemoized) engine-set fetch before
the name filter is consulted, so the round trip happens even for a rejected
name; and `__init__` evaluates `engineIncluded('innodb')` unconditionally, so
constructing the plugin always triggers the fetch, whatever the
include/exclude configuration — a failing fetch even aborts construction. -/
theorem C10_engine_fetch_always (env : Env) (cfg : Config) (name : String)
    (st : PollState) (es : List String) (e : PyErr) :
    (st.engines = none → envCheckFilter cfg name = false →
      env.enginesFetch st.engineFetches = Except.ok es →
      engineIncluded env cfg name st =
        Except.ok (false, { st with engines := some es,
                                    engineFetches := st.engineFetches + 1 })) ∧
    (st.engines = none → env.enginesFetch st.engineFetches = Except.error e →
      engineIncluded env cfg name st = Except.error e) ∧
    (env.enginesFetch 0 = Except.ok es →
      ∃ reg, pluginInit env cfg =
        Except.ok (reg, { genStats := none, engines := some es,
                          statsFetches := 0, engineFetches := 1 })) ∧
    (env.enginesFetch 0 = Except.error e →
      pluginInit env cfg = Except.error e) := by
  refine ⟨fun h1 h2 h3 => ?_, fun h1 h2 => ?_, fun h => ?_, fun h => ?_⟩
  · simp [engineIncluded, h1, h2, h3]
  · simp [engineIncluded, h1, h2]
  · refine ⟨baseRegistry cfg ++
      (if envCheckFilter cfg "innodb" && es.contains "innodb"
       then innodbRegistry cfg else []), ?_⟩
    simp [pluginInit, engineIncluded, initialState, h, bind, Except.bind,
      pure, Except.pure]
  · simp [pluginInit, engineIncluded, initialState, h, bind, Except.bind]

/-- Witness for `C10_engine_fetch_always`: even with `exclude_engine`
rejecting `innodb`, the fetch is performed (the counter rises, the result is
memoized) and construction aborts when the fetch fails. -/
theorem C10_witness :
    engineIncluded
      { statsFetch := fun _ => Except.ok [],
        enginesFetch := fun _ => Except.ok ["innodb"] }
      { includeGraphs := [], excludeGraphs := [],
        includeEngine := [], excludeEngine := ["innodb"] }
      "innodb" initialState =
      Except.ok (false, { genStats := none, engines := some ["innodb"],
                          statsFetches := 0, engineFetches := 1 }) ∧
    engineIncluded
      { statsFetch := fun _ => Except.ok [],
        enginesFetch := fun _ => Except.error PyErr.connError }
      { includeGraphs := [], excludeGraphs := [],
        includeEngine := [], excludeEngine := ["innodb"] }
      "innodb" initialState = Except.error PyErr.connError ∧
    (∃ reg, pluginInit
      { statsFetch := fun _ => Except.ok [],
        enginesFetch := fun _ => Except.ok ["innodb"] }
      { includeGraphs := [], excludeGraphs := [],
        includeEngine := [], excludeEngine := ["innodb"] } =
      Except.ok (reg, { genStats := none, engines := some ["innodb"],
                        statsFetches := 0, engineFetches := 1 })) ∧
    pluginInit
      { statsFetch := fun _ => Except.ok [],
        enginesFetch := fun _ => Except.error PyErr.connError }
      { includeGraphs := [], excludeGraphs := [],
        includeEngine := [], excludeEngine := ["innodb"] } =
      Except.error PyErr.connError :=
  ⟨(C10_engine_fetch_always
      { statsFetch := fun _ => Except.ok [],
        enginesFetch := fun _ => Except.ok ["innodb"] }
      { includeGraphs := [], excludeGraphs := [],
        includeEngine := [], excludeEngine := ["innodb"] }
      "innodb" initialState ["innodb"] PyErr.connError).1 rfl rfl rfl,
   (C10_engine_fetch_always
      { statsFetch := fun _ => Except.ok [],
        enginesFetch := fun _ => Except.error PyErr.connError }
      { includeGraphs := [], excludeGraphs := [],
        includeEngine := [], excludeEngine := ["innodb"] }
      "innodb" initialState ["innodb"] PyErr.connError).2.1 rfl rfl,
   (C10_engine_fetch_always
      { statsFetch := fun _ => Except.ok [],
        enginesFetch := fun _ => Except.ok ["innodb"] }
      { includeGraphs := [], excludeGraphs := [],
        includeEngine := [], excludeEngine := ["innodb"] }
      "innodb" initialState ["innodb"] PyErr.connError).2.2.1 rfl,
   (C10_engine_fetch_always
      { statsFetch := fun _ => Except.ok [],
        enginesFetch := fun _ => Except.error PyErr.connError }
      { includeGraphs := [], excludeGraphs := [],
        includeEngine := [], excludeEngine := ["innodb"] }
      "innodb" initialState ["innodb"] PyErr.connError).2.2.2 rfl⟩

/-! ## Claim C2: the buffer-pool utilization derivation -/

/-- C2 counterexample: with `innodb` active and the utilization graph
registered, a snapshot that lacks `Innodb_page_size` (but has the page
counts needed to reach that read) makes the poll cycle raise `TypeError` —
no field is assigned the unknown marker, contradicting the claim that an
absent page size yields unknown and never a raised failure. -/
theorem C2_counterexample :
    retrieveVals
      { statsFetch := fun _ => Except.ok
          [("Innodb_buffer_pool_pages_data", 100),
           ("Innodb_buffer_pool_pages_dirty", 10)],
        enginesFetch := fun _ => Except.ok ["innodb"] }
      cfgDefault ["mysql_innodb_buffer_pool_util"] initialState =
      Except.error PyErr.typeError := by
  rfl

/-- C2 (amended): when the data and dirty page counts, the page size and the
misc/free/total page counts are all present, each utilization field equals
its page count multiplied by the page size (the clean count being the derived
`data - dirty` written back into the snapshot); when any of these counters is
absent, the section raises `TypeError` (aborting the poll) instead of
producing the unknown marker. -/
theorem C2_amended (gs : Snapshot) :
    (∀ data dirty psize misc free total : Int,
      gs.get "Innodb_buffer_pool_pages_data" = some data →
      gs.get "Innodb_buffer_pool_pages_dirty" = some dirty →
      gs.get "Innodb_page_size" = some psize →
      gs.get "Innodb_buffer_pool_pages_misc" = some misc →
      gs.get "Innodb_buffer_pool_pages_free" = some free →
      gs.get "Innodb_buffer_pool_pages_total" = some total →
      bpUtilVals gs = Except.ok
        (gs.set "Innodb_buffer_pool_pages_clean" (data - dirty),
         [("mysql_innodb_buffer_pool_util", "dirty", some (dirty * psize)),
          ("mysql_innodb_buffer_pool_util", "clean",
           some ((data - dirty) * psize)),
          ("mysql_innodb_buffer_pool_util", "misc", some (misc * psize)),
          ("mysql_innodb_buffer_pool_util", "free", some (free * psize)),
          ("mysql_innodb_buffer_pool_util", "total",
           some (total * psize))])) ∧
    ((gs.get "Innodb_buffer_pool_pages_data" = none ∨
      gs.get "Innodb_buffer_pool_pages_dirty" = none ∨
      gs.get "Innodb_page_size" = none ∨
      gs.get "Innodb_buffer_pool_pages_misc" = none ∨
      gs.get "Innodb_buffer_pool_pages_free" = none ∨
      gs.get "Innodb_buffer_pool_pages_total" = none) →
      bpUtilVals gs = Except.error PyErr.typeError) := by
  constructor
  · intro data dirty psize misc free total hd hdi hp hm hf ht
    simp [bpUtilVals, hd, hdi, hp, hm, hf, ht, pySub, pyInt, pyMulL,
      Snapshot.get_setclean_psize, Snapshot.get_setclean_dirty,
      Snapshot.get_setclean_misc, Snapshot.get_setclean_free,
      Snapshot.get_setclean_total, Snapshot.get_set_same,
      bind, Except.bind, pure, Except.pure]
  · intro h
    rcases h with h | h | h | h | h | h
    · cases hdi : gs.get "Innodb_buffer_pool_pages_dirty" <;>
        simp [bpUtilVals, h, hdi, pySub, bind, Except.bind]
    · cases hd : gs.get "Innodb_buffer_pool_pages_data" <;>
        simp [bpUtilVals, h, hd, pySub, bind, Except.bind]
    · cases hd : gs.get "Innodb_buffer_pool_pages_data" <;>
      cases hdi : gs.get "Innodb_buffer_pool_pages_dirty" <;>
        simp [bpUtilVals, h, hd, hdi, pySub, pyInt,
          Snapshot.get_setclean_psize, bind, Except.bind]
    · cases hd : gs.get "Innodb_buffer_pool_pages_data" <;>
      cases hdi : gs.get "Innodb_buffer_pool_pages_dirty" <;>
      cases hp : gs.get "Innodb_page_size" <;>
        simp [bpUtilVals, h, hd, hdi, hp, pySub, pyInt, pyMulL,
          Snapshot.get_setclean_psize, Snapshot.get_setclean_dirty,
          Snapshot.get_setclean_misc, Snapshot.get_set_same,
          bind, Except.bind]
    · cases hd : gs.get "Innodb_buffer_pool_pages_data" <;>
      cases hdi : gs.get "Innodb_buffer_pool_pages_dirty" <;>
      cases hp : gs.get "Innodb_page_size" <;>
      cases hm : gs.get "Innodb_buffer_pool_pages_misc" <;>
        simp [bpUtilVals, h, hd, hdi, hp, hm, pySub, pyInt, pyMulL,
          Snapshot.get_setclean_psize, Snapshot.get_setclean_dirty,
          Snapshot.get_setclean_misc, Snapshot.get_setclean_free,
          Snapshot.get_set_same, bind, Except.bind]
    · cases hd : gs.get "Innodb_buffer_pool_pages_data" <;>
      cases hdi : gs.get "Innodb_buffer_pool_pages_dirty" <;>
      cases hp : gs.get "Innodb_page_size" <;>
      cases hm : gs.get "Innodb_buffer_pool_pages_misc" <;>
      cases hf : gs.get "Innodb_buffer_pool_pages_free" <;>
        simp [bpUtilVals, h, hd, hdi, hp, hm, hf, pySub, pyInt, pyMulL,
          Snapshot.get_setclean_psize, Snapshot.get_setclean_dirty,
          Snapshot.get_setclean_misc, Snapshot.get_setclean_free,
          Snapshot.get_setclean_total, Snapshot.get_set_same,
          bind, Except.bind]

/-- Witness for `C2_amended` on a fully populated buffer-pool snapshot and on
one missing `Innodb_page_size`. -/
theorem C2_amended_witness :
    bpUtilVals bpSnapshot = Except.ok
      (Snapshot.set bpSnapshot "Innodb_buffer_pool_pages_clean" 90,
       [("mysql_innodb_buffer_pool_util", "dirty", some 40960),
        ("mysql_innodb_buffer_pool_util", "clean", some 368640),
        ("mysql_innodb_buffer_pool_util", "misc", some 20480),
        ("mysql_innodb_buffer_pool_util", "free", some 81920),
        ("mysql_innodb_buffer_pool_util", "total", some 512000)]) ∧
    bpUtilVals [("Innodb_buffer_pool_pages_data", 100),
                ("Innodb_buffer_pool_pages_dirty", 10)] =
      Except.error PyErr.typeError :=
  ⟨(C2_amended bpSnapshot).1 100 10 4096 5 20 125 rfl rfl rfl rfl rfl rfl,
   (C2_amended [("Innodb_buffer_pool_pages_data", 100),
                ("Innodb_buffer_pool_pages_dirty", 10)]).2
     (Or.inr (Or.inr (Or.inl rfl)))⟩

/-! ## Claim C6: (non-)immutability of the snapshot during the poll -/

/-- A successful memoized fetch on a fresh state reports the snapshot of the
round trip and stores it in the state. -/
theorem getGenStats_fresh_ok (env : Env) (st : PollState) (gs : Snapshot)
    (st1 : PollState) (h0 : st.genStats = none)
    (h : getGenStats env st = Except.ok (gs, st1)) :
    env.statsFetch st.statsFetches = Except.ok gs ∧
      st1.genStats = some gs := by
  simp only [getGenStats, h0] at h
  cases hf : env.statsFetch st.statsFetches with
  | error e => simp only [hf] at h; exact Except.noConfusion h
  | ok s =>
    simp only [hf] at h
    injection h with h'
    injection h' with hs hst
    subst hs
    rw [← hst]
    exact ⟨rfl, rfl⟩

/-- `engineIncluded` never touches `self._genStats`. -/
theorem engineIncluded_ok_state (env : Env) (cfg : Config) (name : String)
    (st : PollState) (b : Bool) (st2 : PollState)
    (h : engineIncluded env cfg name st = Except.ok (b, st2)) :
    st2.genStats = st.genStats := by
  unfold engineIncluded at h
  cases he : st.engines with
  | some es =>
    simp only [he] at h
    injection h with h'
    injection h' with _ hst
    rw [← hst]
  | none =>
    simp only [he] at h
    cases hf : env.enginesFetch st.engineFetches with
    | error e => simp only [hf] at h; exact Except.noConfusion h
    | ok es =>
      simp only [hf] at h
      injection h with h'
      injection h' with _ hst
      rw [← hst]

/-- The only snapshot mutation in the buffer-pool-util section is the write
of the derived clean-page count. -/
theorem bpUtilVals_ok_snapshot (gs gs2 : Snapshot) (o : List SetCall)
    (h : bpUtilVals gs = Except.ok (gs2, o)) :
    ∃ v, gs2 = Snapshot.set gs "Innodb_buffer_pool_pages_clean" v := by
  unfold bpUtilVals at h
  simp only [bind, Except.bind] at h
  cases h1 : pySub (gs.get "Innodb_buffer_pool_pages_data")
      (gs.get "Innodb_buffer_pool_pages_dirty") with
  | error e => simp only [h1] at h; exact Except.noConfusion h
  | ok clean =>
    simp only [h1] at h
    cases h2 : pyInt ((Snapshot.set gs "Innodb_buffer_pool_pages_clean"
        clean).get "Innodb_page_size") with
    | error e => simp only [h2] at h; exact Except.noConfusion h
    | ok ps =>
      simp only [h2] at h
      cases h3 : pyMulL ((Snapshot.set gs "Innodb_buffer_pool_pages_clean"
          clean).get "Innodb_buffer_pool_pages_dirty") ps with
      | error e => simp only [h3] at h; exact Except.noConfusion h
      | ok dB =>
        simp only [h3] at h
        cases h4 : pyMulL ((Snapshot.set gs "Innodb_buffer_pool_pages_clean"
            clean).get "Innodb_buffer_pool_pages_clean") ps with
        | error e => simp only [h4] at h; exact Except.noConfusion h
        | ok cB =>
          simp only [h4] at h
          cases h5 : pyMulL ((Snapshot.set gs "Innodb_buffer_pool_pages_clean"
              clean).get "Innodb_buffer_pool_pages_misc") ps with
          | error e => simp only [h5] at h; exact Except.noConfusion h
          | ok mB =>
            simp only [h5] at h
            cases h6 : pyMulL ((Snapshot.set gs
                "Innodb_buffer_pool_pages_clean"
                clean).get "Innodb_buffer_pool_pages_free") ps with
            | error e => simp only [h6] at h; exact Except.noConfusion h
            | ok fB =>
              simp only [h6] at h
              cases h7 : pyMulL ((Snapshot.set gs
                  "Innodb_buffer_pool_pages_clean"
                  clean).get "Innodb_buffer_pool_pages_total") ps with
              | error e => simp only [h7] at h; exact Except.noConfusion h
              | ok tB =>
                simp only [h7, pure, Except.pure] at h
                injection h with h'
                injection h' with hgs _
                exact ⟨clean, hgs.symm⟩

/-- The guarded buffer-pool-util section either leaves the snapshot alone or
writes exactly the clean-page key. -/
theorem bpUtilValsIf_snapshot (reg : List String) (gs gs2 : Snapshot)
    (o : List SetCall) (h : bpUtilValsIf reg gs = Except.ok (gs2, o)) :
    gs2 = gs ∨
      ∃ v, gs2 = Snapshot.set gs "Innodb_buffer_pool_pages_clean" v := by
  unfold bpUtilValsIf at h
  by_cases hc : reg.contains "mysql_innodb_buffer_pool_util" = true
  · rw [if_pos hc] at h
    exact Or.inr (bpUtilVals_ok_snapshot gs gs2 o h)
  · rw [if_neg hc] at h
    injection h with h'
    injection h' with hgs _
    exact Or.inl hgs.symm

/-- The whole InnoDB block either leaves the snapshot alone or writes
exactly the clean-page key. -/
theorem innodbSection_snapshot (reg : List String) (gs : Snapshot)
    (inc : Bool) (gs2 : Snapshot) (o : List SetCall)
    (h : innodbSection reg gs inc = Except.ok (gs2, o)) :
    gs2 = gs ∨
      ∃ v, gs2 = Snapshot.set gs "Innodb_buffer_pool_pages_clean" v := by
  unfold innodbSection at h
  cases inc with
  | false =>
    rw [if_neg Bool.false_ne_true] at h
    injection h with h'
    injection h' with hgs _
    exact Or.inl hgs.symm
  | true =>
    rw [if_pos rfl] at h
    simp only [bind, Except.bind] at h
    cases hb : bpUtilValsIf reg gs with
    | error e => simp only [hb] at h; exact Except.noConfusion h
    | ok r =>
      obtain ⟨gs2x, o9⟩ := r
      simp only [hb] at h
      injection h with h'
      injection h' with hgs _
      exact hgs ▸ bpUtilValsIf_snapshot reg gs gs2x o9 hb

/-- C6 counterexample: a concrete poll over a fully populated buffer-pool
snapshot ends with the memoized snapshot extended by a
`Innodb_buffer_pool_pages_clean` entry that the fetched snapshot did not
contain — an operation of the poll cycle added an entry to the snapshot
mapping. -/
theorem C6_counterexample :
    (retrieveVals
      { statsFetch := fun _ => Except.ok bpSnapshot,
        enginesFetch := fun _ => Except.ok ["innodb"] }
      cfgDefault ["mysql_innodb_buffer_pool_util"] initialState).map
        (fun r => r.2.genStats) =
      Except.ok
        (some (bpSnapshot ++ [("Innodb_buffer_pool_pages_clean", 90)])) ∧
    bpSnapshot.get "Innodb_buffer_pool_pages_clean" = none := by
  exact ⟨rfl, rfl⟩

/-- C6 (amended): the poll cycle performs at most one write to the fetched
snapshot: when the buffer-pool-utilization section runs, it stores the
derived clean-page count under `Innodb_buffer_pool_pages_clean`; the final
memoized snapshot is the fetched one either unchanged or with exactly that
key written. -/
theorem C6_amended (env : Env) (cfg : Config) (reg : List String)
    (st0 : PollState) (out : List SetCall) (stF : PollState)
    (h0 : st0.genStats = none)
    (h : retrieveVals env cfg reg st0 = Except.ok (out, stF)) :
    ∃ gs0, env.statsFetch st0.statsFetches = Except.ok gs0 ∧
      (stF.genStats = some gs0 ∨
       ∃ v, stF.genStats =
         some (Snapshot.set gs0 "Innodb_buffer_pool_pages_clean" v)) := by
  unfold retrieveVals at h
  simp only [bind, Except.bind] at h
  cases hg : getGenStats env st0 with
  | error e => simp only [hg] at h; exact Except.noConfusion h
  | ok p =>
    obtain ⟨gs, st1⟩ := p
    simp only [hg] at h
    obtain ⟨hfetch, hst1⟩ := getGenStats_fresh_ok env st0 gs st1 h0 hg
    refine ⟨gs, hfetch, ?_⟩
    cases h7 : threadsValsIf reg gs with
    | error e => simp only [h7] at h; exact Except.noConfusion h
    | ok o7 =>
      simp only [h7] at h
      cases he : engineIncluded env cfg "innodb" st1 with
      | error e => simp only [he] at h; exact Except.noConfusion h
      | ok q =>
        obtain ⟨inc, st2⟩ := q
        simp only [he] at h
        cases hs : innodbSection reg gs inc with
        | error e => simp only [hs] at h; exact Except.noConfusion h
        | ok r =>
          obtain ⟨gs2, oInn⟩ := r
          simp only [hs] at h
          injection h with h'
          injection h' with _ hstF
          rcases innodbSection_snapshot reg gs inc gs2 oInn hs with
            hgs | ⟨v, hgs⟩
          · left
            rw [← hstF]
            simp [hgs]
          · right
            refine ⟨v, ?_⟩
            rw [← hstF]
            simp [hgs]

/-- Witness for `C6_amended` at the concrete buffer-pool poll: the final
memoized snapshot is the fetched one with exactly the clean-page key
written. -/
theorem C6_amended_witness :
    ∃ gs0,
      Env.statsFetch
        { statsFetch := fun _ => Except.ok bpSnapshot,
          enginesFetch := fun _ => Except.ok ["innodb"] }
        initialState.statsFetches = Except.ok gs0 ∧
      (PollState.genStats
          { genStats :=
              some (bpSnapshot ++ [("Innodb_buffer_pool_pages_clean", 90)]),
            engines := some ["innodb"],
            statsFetches := 1, engineFetches := 1 } = some gs0 ∨
       ∃ v, PollState.genStats
          { genStats :=
              some (bpSnapshot ++ [("Innodb_buffer_pool_pages_clean", 90)]),
            engines := some ["innodb"],
            statsFetches := 1, engineFetches := 1 } =
          some (Snapshot.set gs0 "Innodb_buffer_pool_pages_clean" v)) :=
  C6_amended
    { statsFetch := fun _ => Except.ok bpSnapshot,
      enginesFetch := fun _ => Except.ok ["innodb"] }
    cfgDefault ["mysql_innodb_buffer_pool_util"] initialState
    [("mysql_slowqueries", "queries", none),
     ("mysql_innodb_buffer_pool_util", "dirty", some 40960),
     ("mysql_innodb_buffer_pool_util", "clean", some 368640),
     ("mysql_innodb_buffer_pool_util", "misc", some 20480),
     ("mysql_innodb_buffer_pool_util", "free", some 81920),
     ("mysql_innodb_buffer_pool_util", "total", some 512000)]
    { genStats := some (bpSnapshot ++ [("Innodb_buffer_pool_pages_clean", 90)]),
      engines := some ["innodb"], statsFetches := 1, engineFetches := 1 }
    rfl rfl
